import Mathlib

/-!
Verification of the temp-convert temperature conversion program.

The program converts a single temperature value between Celsius,
Fahrenheit and Kelvin (src/lib.rs, src/utils.rs).  All numeric values in
the source are Rust f64.  The development models a finite f64 exactly as
a rational number (the conversion formulas use only +, -, * and division
by the nonzero literals 5 and 9, so the exact arithmetic of the formulas
is captured; rounding error of the binary format is not modelled).  The
special value NaN, whose comparison behaviour the validation check in
Args::run depends on, is modelled explicitly by the type FVal below:
an f64 is either NaN or a finite rational, NaN compares false under <,
and arithmetic on NaN yields NaN, exactly as in IEEE-754 / Rust.
-/

namespace TempConvert

/-- Absolute zero expressed in Celsius (src/utils.rs line 1). -/
def ABS_ZERO_CELSIUS : ℚ := -273.15

/-- Absolute zero expressed in Fahrenheit (src/utils.rs line 2). -/
def ABS_ZERO_FAHRENHEIT : ℚ := -459.67

/-- Absolute zero expressed in Kelvin (src/utils.rs line 3). -/
def ABS_ZERO_KELVIN : ℚ := 0.0

/-- The closed enumeration of temperature units (enum Unit in src/lib.rs). -/
inductive Unit where
  | C
  | F
  | K
deriving DecidableEq, Repr

/-- Unit absolute zero value (Unit::absolute_zero in src/lib.rs). -/
def Unit.absolute_zero : Unit → ℚ
  | .C => ABS_ZERO_CELSIUS
  | .F => ABS_ZERO_FAHRENHEIT
  | .K => ABS_ZERO_KELVIN

/-- Human readable unit name (Unit::full_name in src/lib.rs). -/
def Unit.full_name : Unit → String
  | .C => "Celsius"
  | .F => "Fahrenheit"
  | .K => "Kelvin"

/-- Convert a temperature value from the current unit to Celsius
(Unit::to_celsius in src/lib.rs), on finite values. -/
def Unit.to_celsius : Unit → ℚ → ℚ
  | .C, value => value
  | .F, value => (value - 32.0) * 5.0 / 9.0
  | .K, value => value - 273.15

/-- Convert a temperature value from Celsius to the current unit
(Unit::from_celsius in src/lib.rs), on finite values. -/
def Unit.from_celsius : Unit → ℚ → ℚ
  | .C, celsius => celsius
  | .F, celsius => (celsius * 9.0 / 5.0) + 32.0
  | .K, celsius => celsius + 273.15

/-- Model of a Rust f64 value as used by this program: NaN or a finite
value represented exactly as a rational. -/
inductive FVal where
  | nan
  | fin (q : ℚ)
deriving DecidableEq, Repr

/-- The f64 strict less-than: any comparison involving NaN is false. -/
def FVal.lt : FVal → FVal → Bool
  | .fin a, .fin b => decide (a < b)
  | _, _ => false

/-- f64 subtraction: NaN propagates. -/
def FVal.sub : FVal → FVal → FVal
  | .fin a, .fin b => .fin (a - b)
  | _, _ => .nan

/-- f64 multiplication: NaN propagates. -/
def FVal.mul : FVal → FVal → FVal
  | .fin a, .fin b => .fin (a * b)
  | _, _ => .nan

/-- f64 division: NaN propagates (the program only divides by 5 and 9). -/
def FVal.div : FVal → FVal → FVal
  | .fin a, .fin b => .fin (a / b)
  | _, _ => .nan

/-- f64 addition: NaN propagates. -/
def FVal.add : FVal → FVal → FVal
  | .fin a, .fin b => .fin (a + b)
  | _, _ => .nan

/-- Unit::to_celsius on the f64 model, the exact expression of the source. -/
def Unit.to_celsiusF : Unit → FVal → FVal
  | .C, value => value
  | .F, value => FVal.div (FVal.mul (FVal.sub value (.fin 32.0)) (.fin 5.0)) (.fin 9.0)
  | .K, value => FVal.sub value (.fin 273.15)

/-- Unit::from_celsius on the f64 model, the exact expression of the source. -/
def Unit.from_celsiusF : Unit → FVal → FVal
  | .C, celsius => celsius
  | .F, celsius => FVal.add (FVal.div (FVal.mul celsius (.fin 9.0)) (.fin 5.0)) (.fin 32.0)
  | .K, celsius => FVal.add celsius (.fin 273.15)

/-- The structured content of the error produced by Args::run: the Rust
code renders these three fields into the message
"Value {value} is below absolute zero for {unit} ({min})". -/
structure ValidationError where
  value : FVal
  unitName : String
  threshold : ℚ
deriving DecidableEq, Repr

/-- The parsed command line arguments (struct Args in src/lib.rs). -/
structure Args where
  value : FVal
  value_unit : Unit
  convert : Unit
deriving DecidableEq, Repr

/-- Embedding of Args::run (src/lib.rs): validate the value against the
source unit absolute zero, then route the conversion through Celsius.
The Rust function renders the error and the result into strings; the
embedding keeps the structured data those strings are built from: the
three error fields and the converted numeric result. -/
def Args.run (a : Args) : Except ValidationError FVal :=
  let min : ℚ := a.value_unit.absolute_zero
  if a.value.lt (FVal.fin min) then
    Except.error ⟨a.value, a.value_unit.full_name, min⟩
  else
    Except.ok (a.convert.from_celsiusF (a.value_unit.to_celsiusF a.value))

/-- The toCelsius formulas exactly as written in the specification
(section 4.1), to be compared with the source definition. -/
def spec_toCelsius : Unit → ℚ → ℚ
  | .C, v => v
  | .F, v => (v - 32) * 5 / 9
  | .K, v => v - 273.15

/-- The fromCelsius formulas exactly as written in the specification
(section 4.1), to be compared with the source definition. -/
def spec_fromCelsius : Unit → ℚ → ℚ
  | .C, c => c
  | .F, c => (c * 9 / 5) + 32
  | .K, c => c + 273.15

/-- ASCII lowercasing of one character, as the case-insensitive matching
of clap (ignore_case = true in src/lib.rs) performs on unit arguments. -/
def lowerChar (c : Char) : Char :=
  if c.toNat ≥ 65 ∧ c.toNat ≤ 90 then Char.ofNat (c.toNat + 32) else c

/-- ASCII lowercasing of a string, character by character. -/
def lowerStr (s : String) : String := String.mk (s.data.map lowerChar)

/-- clap value parsing for Unit as declared in src/lib.rs: the value
names are the lowercased variant names c, f, k with aliases celsius,
fahrenheit, kelvin, matched case-insensitively (ignore_case = true). -/
def parseUnit (s : String) : Option Unit :=
  if lowerStr s = "c" ∨ lowerStr s = "celsius" then some .C
  else if lowerStr s = "f" ∨ lowerStr s = "fahrenheit" then some .F
  else if lowerStr s = "k" ∨ lowerStr s = "kelvin" then some .K
  else none

/-- The clap default for the -u and --unit argument (src/lib.rs). -/
def VALUE_UNIT_DEFAULT : String := "f"

/-- The clap default for the -c and --convert argument (src/lib.rs). -/
def CONVERT_DEFAULT : String := "c"

/-- Parsing a command line that carries only a bare value and no unit
flags: clap fills both unit fields from their declared default values. -/
def parseBareValue (value : FVal) : Option Args :=
  match parseUnit VALUE_UNIT_DEFAULT, parseUnit CONVERT_DEFAULT with
  | some u, some c => some ⟨value, u, c⟩
  | _, _ => none

/-- Round trip through Celsius is exact on the rational model. -/
theorem from_to_celsius_id (u : Unit) (v : ℚ) :
    u.from_celsius (u.to_celsius v) = v := by
  cases u <;> simp only [Unit.to_celsius, Unit.from_celsius] <;> ring

/-- On finite values the f64 model of to_celsius agrees with the rational one. -/
theorem to_celsiusF_fin (u : Unit) (v : ℚ) :
    u.to_celsiusF (FVal.fin v) = FVal.fin (u.to_celsius v) := by
  cases u <;> rfl

/-- On finite values the f64 model of from_celsius agrees with the rational one. -/
theorem from_celsiusF_fin (u : Unit) (v : ℚ) :
    u.from_celsiusF (FVal.fin v) = FVal.fin (u.from_celsius v) := by
  cases u <;> rfl

/-- C1: Args::run fails exactly on values strictly below the source unit
absolute zero (a NaN value is never strictly below anything); the error
carries the offending value, the source unit display name and the source
unit absolute-zero threshold; in every other case it returns
fromCelsius(targetUnit, toCelsius(sourceUnit, value)). -/
theorem run_error_characterization (a : Args) :
    ((∃ e, a.run = Except.error e) ↔
      ∃ q : ℚ, a.value = FVal.fin q ∧ q < a.value_unit.absolute_zero) ∧
    (∀ e, a.run = Except.error e →
      e.value = a.value ∧ e.unitName = a.value_unit.full_name ∧
      e.threshold = a.value_unit.absolute_zero) ∧
    ((∀ q : ℚ, a.value = FVal.fin q → a.value_unit.absolute_zero ≤ q) →
      a.run = Except.ok (a.convert.from_celsiusF (a.value_unit.to_celsiusF a.value))) := by
  obtain ⟨v, u, t⟩ := a
  cases v with
  | nan =>
    refine ⟨?_, ?_, ?_⟩ <;> simp [Args.run, FVal.lt]
  | fin q =>
    by_cases h : q < u.absolute_zero
    · refine ⟨?_, ?_, ?_⟩
      · simp [Args.run, FVal.lt, h]
      · intro e he
        have hrun : (Args.mk (FVal.fin q) u t).run
            = Except.error ⟨FVal.fin q, u.full_name, u.absolute_zero⟩ := by
          simp [Args.run, FVal.lt, h]
        rw [hrun] at he
        cases he
        exact ⟨rfl, rfl, rfl⟩
      · intro hall
        exact absurd (hall q rfl) (not_le.mpr h)
    · refine ⟨?_, ?_, ?_⟩ <;> simp [Args.run, FVal.lt, h]

/-- C2: Unit::to_celsius computes exactly the formulas of the
specification for every input value. -/
theorem to_celsius_matches_spec (v : ℚ) :
    Unit.C.to_celsius v = v ∧
    Unit.F.to_celsius v = (v - 32) * 5 / 9 ∧
    Unit.K.to_celsius v = v - 273.15 := by
  refine ⟨rfl, ?_, ?_⟩ <;> norm_num [Unit.to_celsius]

/-- C3: Unit::from_celsius computes exactly the formulas of the
specification for every Celsius input value. -/
theorem from_celsius_matches_spec (c : ℚ) :
    Unit.C.from_celsius c = c ∧
    Unit.F.from_celsius c = (c * 9 / 5) + 32 ∧
    Unit.K.from_celsius c = c + 273.15 := by
  refine ⟨rfl, ?_, ?_⟩ <;> norm_num [Unit.from_celsius]

/-- C4: for every value at or above the unit absolute zero the round
trip through Celsius returns the value within tolerance 1e-10 (on the
exact model the difference is zero). -/
theorem round_trip_within_tolerance (u : Unit) (v : ℚ)
    (_h : u.absolute_zero ≤ v) :
    |u.from_celsius (u.to_celsius v) - v| < 1e-10 := by
  rw [from_to_celsius_id, sub_self, abs_zero]
  norm_num

/-- Witness for the round trip claim at 98.6 Fahrenheit. -/
theorem round_trip_within_tolerance_witness :
    Unit.F.absolute_zero ≤ (98.6 : ℚ) ∧
    |Unit.F.from_celsius (Unit.F.to_celsius 98.6) - 98.6| < 1e-10 :=
  ⟨by norm_num [Unit.absolute_zero, ABS_ZERO_FAHRENHEIT],
   round_trip_within_tolerance Unit.F 98.6
     (by norm_num [Unit.absolute_zero, ABS_ZERO_FAHRENHEIT])⟩

/-- C5: the absolute-zero boundary is inclusive: a value equal to the
source unit absolute zero is accepted for every target unit. -/
theorem boundary_inclusive (su tu : Unit) :
    ∃ r, (Args.mk (FVal.fin su.absolute_zero) su tu).run = Except.ok r := by
  refine ⟨tu.from_celsiusF (su.to_celsiusF (FVal.fin su.absolute_zero)), ?_⟩
  simp [Args.run, FVal.lt]

/-- C6: the three unit variants carry the constant absolute zeros and
display names stated by the specification. -/
theorem unit_constant_attributes :
    Unit.C.absolute_zero = -273.15 ∧ Unit.F.absolute_zero = -459.67 ∧
    Unit.K.absolute_zero = 0.0 ∧
    Unit.C.full_name = "Celsius" ∧ Unit.F.full_name = "Fahrenheit" ∧
    Unit.K.full_name = "Kelvin" :=
  ⟨rfl, rfl, rfl, rfl, rfl, rfl⟩

/-- C7: with only a bare value and no unit flags, the source unit
defaults to Fahrenheit and the target unit defaults to Celsius. -/
theorem bare_value_defaults (v : FVal) :
    parseBareValue v = some (Args.mk v Unit.F Unit.C) := by
  have h1 : parseUnit VALUE_UNIT_DEFAULT = some Unit.F := by decide
  have h2 : parseUnit CONVERT_DEFAULT = some Unit.C := by decide
  simp [parseBareValue, h1, h2]

/-- C8: Args::run is a pure function of exactly its three inputs: two
invocations with equal value, source unit and target unit produce equal
results. -/
theorem run_pure_function (a b : Args) (h1 : a.value = b.value)
    (h2 : a.value_unit = b.value_unit) (h3 : a.convert = b.convert) :
    a.run = b.run := by
  obtain ⟨av, au, ac⟩ := a
  obtain ⟨bv, bu, bc⟩ := b
  cases h1
  cases h2
  cases h3
  rfl

/-- Witness for purity: two identical invocations at 7 Celsius to Kelvin. -/
theorem run_pure_function_witness :
    (Args.mk (FVal.fin 7) Unit.C Unit.K).run
      = (Args.mk (FVal.fin 7) Unit.C Unit.K).run :=
  run_pure_function _ _ rfl rfl rfl

/-- C9: to_celsius and from_celsius are total and perform no range
checking: below the unit absolute zero they still return the arithmetic
formula result (both on the rational and on the f64 model), while
Args::run rejects that same value for every target unit. -/
theorem conversion_total_no_range_check (u : Unit) (v : ℚ)
    (h : v < u.absolute_zero) :
    u.to_celsius v = spec_toCelsius u v ∧
    u.from_celsius v = spec_fromCelsius u v ∧
    u.to_celsiusF (FVal.fin v) = FVal.fin (u.to_celsius v) ∧
    u.from_celsiusF (FVal.fin v) = FVal.fin (u.from_celsius v) ∧
    ∀ tu : Unit, ∃ e, (Args.mk (FVal.fin v) u tu).run = Except.error e := by
  refine ⟨?_, ?_, to_celsiusF_fin u v, from_celsiusF_fin u v, ?_⟩
  · cases u <;> norm_num [Unit.to_celsius, spec_toCelsius]
  · cases u <;> norm_num [Unit.from_celsius, spec_fromCelsius]
  · intro tu
    refine ⟨⟨FVal.fin v, u.full_name, u.absolute_zero⟩, ?_⟩
    simp [Args.run, FVal.lt, h]

/-- Witness for totality and absence of range checking at -300 Celsius. -/
theorem conversion_total_no_range_check_witness :
    (-300 : ℚ) < Unit.C.absolute_zero ∧
    (Unit.C.to_celsius (-300) = spec_toCelsius Unit.C (-300) ∧
     Unit.C.from_celsius (-300) = spec_fromCelsius Unit.C (-300) ∧
     Unit.C.to_celsiusF (FVal.fin (-300)) = FVal.fin (Unit.C.to_celsius (-300)) ∧
     Unit.C.from_celsiusF (FVal.fin (-300)) = FVal.fin (Unit.C.from_celsius (-300)) ∧
     ∀ tu : Unit, ∃ e, (Args.mk (FVal.fin (-300)) Unit.C tu).run = Except.error e) :=
  ⟨by norm_num [Unit.absolute_zero, ABS_ZERO_CELSIUS],
   conversion_total_no_range_check Unit.C (-300)
     (by norm_num [Unit.absolute_zero, ABS_ZERO_CELSIUS])⟩

/-- C10: a NaN value is never rejected by the validation check, because
NaN compares false against every threshold; Args::run returns Ok and the
result is NaN for every pair of units. -/
theorem nan_never_rejected (su tu : Unit) :
    (Args.mk FVal.nan su tu).run = Except.ok FVal.nan := by
  cases su <;> cases tu <;> rfl

end TempConvert
